import Mathlib

/-! pysmbc `context.c`: the credential callback and the `smbc.Context` object

A shallow embedding of `src/context.c` (Python 2 C extension over libsmbclient).

* Python objects are the inductive `PyObject`; a callable is known by an identity and
  its behaviour is supplied by a `PyEnv`.
* `char *` output buffers are byte regions (`List Nat`, one entry per byte); reading a
  region as a NUL-terminated string is `cstr`, which is `none` when the region holds no
  NUL (the read would leave the region).
* The interpreter's error indicator is an explicit `Option PyExc`.
* Undefined behaviour of the C code (NULL dereference, access outside a region) is the
  result `none`.
* libsmbclient itself is outside the repository: its accessors are modelled as plain
  field accesses on `SMBCCTX`, and the outcome of `smbc_new_context` /
  `smbc_init_context` is supplied by a `Native` record.
* Allocation failures inside the Python runtime (`Py_BuildValue`, `PyDict_New`,
  `tp_alloc`) and reference counts are not modelled.
-/

namespace Pysmbc

/-! ## Python objects -/

/-- Python 2 values, as far as `context.c` distinguishes them. `int` is the machine
`long` based Python 2 `int`; `str` is a byte string; `other` stands for every object of
another type (float, long, dict, ...). -/
inductive PyObject where
  | none : PyObject
  | bool (b : Bool) : PyObject
  | int (n : Int) : PyObject
  | str (bytes : List Nat) : PyObject
  | tuple (items : List PyObject) : PyObject
  | callable (id : Nat) : PyObject
  | other (tag : Nat) : PyObject

/-- Exceptions that can sit in the error indicator. `raised tag` is an exception raised
by user code (a resolver). -/
inductive PyExc where
  | TypeError : PyExc
  | RuntimeError : PyExc
  | SystemError : PyExc
  | OverflowError : PyExc
  | raised (tag : Nat) : PyExc
  deriving DecidableEq, Repr

/-- Keyword arguments of a call. -/
abbrev PyKwds := List (String × PyObject)

/-- Behaviour of the callables of the host program: the callable with identity `id`,
called with positional and keyword arguments, returns an object or raises. -/
abbrev PyEnv := Nat → List PyObject → PyKwds → Except PyExc PyObject

/-- A call made into Python code. -/
structure Call where
  callee : PyObject
  args : List PyObject
  kwds : PyKwds

/-- The C library call `PyCallable_Check`. -/
def PyCallable_Check : PyObject → Bool
  | .callable _ => true
  | _ => false

/-- The C library call `PyBool_Check`: exactly the two Boolean objects. -/
def PyBool_Check : PyObject → Bool
  | .bool _ => true
  | _ => false

/-- The comparison `value == Py_True`. -/
def isPyTrue : PyObject → Bool
  | .bool true => true
  | _ => false

/-- The C library call `PyInt_Check`: a Python 2 `int` or an instance of a subclass of it; `bool` is such
a subclass. -/
def PyInt_Check : PyObject → Bool
  | .int _ => true
  | .bool _ => true
  | _ => false

/-- The C library call `PyInt_AsLong` on an object that passed `PyInt_Check` (0 stands in elsewhere; the
code never asks). -/
def PyInt_AsLong : PyObject → Int
  | .int n => n
  | .bool b => if b then 1 else 0
  | _ => 0

/-- The C library call `PyObject_Call (f, args, kwds)`: result or raised exception. -/
def PyObject_Call (env : PyEnv) (f : PyObject) (args : List PyObject) (kwds : PyKwds) :
    Except PyExc PyObject :=
  match f with
  | .callable id => env id args kwds
  | _ => .error .TypeError

/-! ## C strings and machine integers -/

/-- Smallest value of a C `int`. -/
def INT_MIN : Int := -2147483648

/-- Largest value of a C `int`. -/
def INT_MAX : Int := 2147483647

/-- Conversion of a `long` to `int` (the assignment `int d = <long>`): wraps modulo
`2^32` into `[INT_MIN, INT_MAX]`. -/
def toCInt (n : Int) : Int := (n + 2147483648) % 4294967296 - 2147483648

/-- Conversion of an `int` argument to the `size_t` parameter of `strncpy`. -/
def toSizeT (n : Int) : Nat := (n % 18446744073709551616).toNat

/-- Conversion of an `int` to `unsigned int` (same 32 bit pattern). -/
def toUnsigned (n : Int) : Nat := (n % 4294967296).toNat

/-- Reading the region `mem` as a NUL-terminated string: the bytes before the first NUL,
or `none` when the region contains no NUL. -/
def cstr (mem : List Nat) : Option (List Nat) :=
  if 0 ∈ mem then some (mem.takeWhile (fun b => b ≠ 0)) else none

/-- The C library call `strncpy (dest, src, n)` on the region `dest`; `src` is the source string's bytes
(its terminating NUL follows them). Exactly `n` bytes are written: the first `n`
characters of the source, then NUL padding if the source is shorter than `n`. No NUL is
written when the source has `n` or more characters. `none` when `n` exceeds the region. -/
def strncpy (dest src : List Nat) (n : Nat) : Option (List Nat) :=
  let s := src.takeWhile (fun b => b ≠ 0)
  if n ≤ dest.length then
    some (s.take n ++ List.replicate (n - s.length) 0 ++ dest.drop n)
  else none

/-- The C library call `Py_BuildValue` item `s` for a `const char *` argument: `None` for NULL. -/
def buildStr : Option (List Nat) → PyObject
  | Option.none => .none
  | some s => .str s

/-- One `s` item of `PyArg_ParseTuple`: a byte string without embedded NUL. -/
def parse_s : PyObject → Except PyExc (List Nat)
  | .str b => if 0 ∈ b then .error .TypeError else .ok b
  | _ => .error .TypeError

/-- The C library call `PyArg_ParseTuple` with the format `sss` on `result`. -/
def PyArg_ParseTuple_sss : PyObject → Except PyExc (List Nat × List Nat × List Nat)
  | .tuple [a, b, c] =>
    match parse_s a with
    | .error e => .error e
    | .ok x =>
      match parse_s b with
      | .error e => .error e
      | .ok y =>
        match parse_s c with
        | .error e => .error e
        | .ok z => .ok (x, y, z)
  | .tuple _ => .error .TypeError
  | _ => .error .SystemError

/-- One `i` item of `PyArg_ParseTupleAndKeywords`. -/
def parse_i : PyObject → Except PyExc Int
  | .int n => if INT_MIN ≤ n ∧ n ≤ INT_MAX then .ok n else .error .OverflowError
  | .bool b => .ok (if b then 1 else 0)
  | _ => .error .TypeError

/-! ## The native context and the Python object -/

/-- The part of libsmbclient's `SMBCCTX` that `context.c` reaches. `flags` is the 32 bit
pattern of the `flags` member; `userData` tells whether the user data is the owning
`Context`; `authFn` tells whether `auth_fn` is registered as the auth callback. -/
structure SMBCCTX where
  debug : Int
  flags : Nat
  debugToStderr : Bool
  noAutoAnonymousLogin : Bool
  userData : Bool
  authFn : Bool
  deriving DecidableEq, Repr

/-- The `Context` object: `context` is the native handle (NULL = `none`), `auth_fn` the
stored resolver (NULL = `none`). -/
structure Context where
  context : Option SMBCCTX
  auth_fn : Option PyObject

/-- Accessor of libsmbclient. -/
def smbc_getDebug (c : SMBCCTX) : Int := c.debug

/-- Accessor of libsmbclient. -/
def smbc_setDebug (c : SMBCCTX) (d : Int) : SMBCCTX := { c with debug := d }

/-- Accessor of libsmbclient. -/
def smbc_getOptionDebugToStderr (c : SMBCCTX) : Bool := c.debugToStderr

/-- Accessor of libsmbclient. -/
def smbc_setOptionDebugToStderr (c : SMBCCTX) (b : Bool) : SMBCCTX :=
  { c with debugToStderr := b }

/-- Accessor of libsmbclient. -/
def smbc_getOptionNoAutoAnonymousLogin (c : SMBCCTX) : Bool := c.noAutoAnonymousLogin

/-- Accessor of libsmbclient. -/
def smbc_setOptionNoAutoAnonymousLogin (c : SMBCCTX) (b : Bool) : SMBCCTX :=
  { c with noAutoAnonymousLogin := b }

/-- Accessor of libsmbclient: the user data becomes the owning `Context`. -/
def smbc_setOptionUserData (c : SMBCCTX) : SMBCCTX := { c with userData := true }

/-- Accessor of libsmbclient: registers `auth_fn` as the auth callback. -/
def smbc_setFunctionAuthDataWithContext (c : SMBCCTX) : SMBCCTX := { c with authFn := true }

/-! ## `auth_fn` -/

/-- What `auth_fn` leaves behind: the three buffer regions, the calls made into Python,
and the error indicator. -/
structure AuthOutcome where
  workgroup : List Nat
  username : List Nat
  password : List Nat
  calls : List Call
  pyerr : Option PyExc

/-- The callback `auth_fn` (lines 26-82). `self` is the `Context` found through the
user data of `ctx`; `server` and `share` are the strings pointed to (NULL = `none`);
`pyerr` is the error indicator on entry. -/
def auth_fn (env : PyEnv) (self : Context) (server share : Option (List Nat))
    (workgroup : List Nat) (wgmaxlen : Int) (username : List Nat) (unmaxlen : Int)
    (password : List Nat) (pwmaxlen : Int) (pyerr : Option PyExc) : Option AuthOutcome :=
  match self.auth_fn with
  | Option.none => some ⟨workgroup, username, password, [], pyerr⟩
  | some cb =>
    match server with
    | Option.none => some ⟨workgroup, username, password, [], pyerr⟩
    | some [] => some ⟨workgroup, username, password, [], pyerr⟩
    | some (c :: cs) =>
      match cstr workgroup, cstr username, cstr password with
      | some wg, some un, some pw =>
        let args : List PyObject :=
          [.str (c :: cs), buildStr share, .str wg, .str un, .str pw]
        let kwds : PyKwds := []
        match PyObject_Call env cb args kwds with
        | .error e => some ⟨workgroup, username, password, [⟨cb, args, kwds⟩], some e⟩
        | .ok result =>
          match PyArg_ParseTuple_sss result with
          | .error e => some ⟨workgroup, username, password, [⟨cb, args, kwds⟩], some e⟩
          | .ok (use_workgroup, use_username, use_password) =>
            match strncpy workgroup use_workgroup (toSizeT wgmaxlen) with
            | Option.none => Option.none
            | some workgroup1 =>
              match strncpy username use_username (toSizeT unmaxlen) with
              | Option.none => Option.none
              | some username1 =>
                match strncpy password use_password (toSizeT pwmaxlen) with
                | Option.none => Option.none
                | some password1 =>
                  some ⟨workgroup1, username1, password1, [⟨cb, args, kwds⟩], pyerr⟩
      | _, _, _ => Option.none

/-! ## Construction and teardown -/

/-- What the native library answers during construction: the context
`smbc_new_context` hands out (`none` = NULL) and whether `smbc_init_context` succeeds.
`smbc_init_context` is taken not to change the members listed in `SMBCCTX`. -/
structure Native where
  new_context : Option SMBCCTX
  init_ok : Bool

/-- Arguments of `Context (...)` after Python's positional / keyword matching against
the keyword list `auth_fn`, `debug`, `flags`: each is given or absent. -/
structure InitArgs where
  auth_fn : Option PyObject
  debug : Option PyObject
  flags : Option PyObject

/-- Result of `Context_init`: return value, the object afterwards, the exception set (if
any), and the number of native contexts obtained from `smbc_new_context` and handed to
`smbc_free_context` during the call. -/
structure InitResult where
  ret : Int
  self : Context
  pyerr : Option PyExc
  allocated : Nat
  freed : Nat

/-- The C library call `PyArg_ParseTupleAndKeywords` with the format `|Oii`
with the C initialisers `auth = NULL`, `debug = 0`, `flags = 0`. -/
def PyArg_ParseTupleAndKeywords_Oii (a : InitArgs) :
    Except PyExc (Option PyObject × Int × Nat) :=
  match (match a.debug with
         | Option.none => Except.ok 0
         | some v => parse_i v) with
  | .error e => .error e
  | .ok debug =>
    match (match a.flags with
           | Option.none => Except.ok 0
           | some v => parse_i v) with
    | .error e => .error e
    | .ok flags => .ok (a.auth_fn, debug, toUnsigned flags)

/-- Source function `Context_new` (lines 88-97): zeroed object, `context = NULL`. -/
def Context_new : Context := ⟨Option.none, Option.none⟩

/-- Source function `Context_init` (lines 99-158). -/
def Context_init (nat : Native) (self : Context) (a : InitArgs) : InitResult :=
  match PyArg_ParseTupleAndKeywords_Oii a with
  | .error e => ⟨-1, self, some e, 0, 0⟩
  | .ok (auth, _debug, flags) =>
    let notCallable : Bool :=
      match auth with
      | some f => !PyCallable_Check f
      | Option.none => false
    if notCallable then ⟨-1, self, some .TypeError, 0, 0⟩
    else
      let self1 : Context :=
        match auth with
        | some f => { self with auth_fn := some f }
        | Option.none => self
      match nat.new_context with
      | Option.none => ⟨-1, self1, some .RuntimeError, 0, 0⟩
      | some ctx =>
        let ctx1 : SMBCCTX :=
          if flags ≠ 0 then { ctx with flags := ctx.flags ||| flags } else ctx
        if !nat.init_ok then ⟨-1, self1, some .RuntimeError, 1, 1⟩
        else
          let ctx2 := smbc_setOptionUserData ctx1
          let ctx3 := if auth.isSome then smbc_setFunctionAuthDataWithContext ctx2 else ctx2
          ⟨0, { self1 with context := some ctx3 }, Option.none, 1, 0⟩

/-- Source function `Context_dealloc` (lines 160-170): the number of native contexts it hands to
`smbc_free_context`. -/
def Context_dealloc (self : Context) : Nat :=
  match self.context with
  | some _ => 1
  | Option.none => 0

/-! ## Getters and setters -/

/-- Result of a setter: return value, the object afterwards, the exception set. -/
structure SetResult where
  ret : Int
  self : Context
  pyerr : Option PyExc

/-- Source function `Context_getDebug` (lines 240-245). -/
def Context_getDebug (self : Context) : Option PyObject :=
  match self.context with
  | Option.none => Option.none
  | some c => some (.int (smbc_getDebug c))

/-- Source function `Context_setDebug` (lines 247-261). -/
def Context_setDebug (self : Context) (value : PyObject) : Option SetResult :=
  if !PyInt_Check value then some ⟨-1, self, some .TypeError⟩
  else
    let d : Int := toCInt (PyInt_AsLong value)
    match self.context with
    | Option.none => Option.none
    | some c => some ⟨0, { self with context := some (smbc_setDebug c d) }, Option.none⟩

/-- Source function `Context_setFunctionAuthData` (lines 263-276). -/
def Context_setFunctionAuthData (self : Context) (value : PyObject) : Option SetResult :=
  if !PyCallable_Check value then some ⟨-1, self, some .TypeError⟩
  else
    match self.context with
    | Option.none => Option.none
    | some c =>
      some ⟨0, ⟨some (smbc_setFunctionAuthDataWithContext c), some value⟩, Option.none⟩

/-- Source function `Context_getOptionDebugToStderr` (lines 278-284). -/
def Context_getOptionDebugToStderr (self : Context) : Option PyObject :=
  match self.context with
  | Option.none => Option.none
  | some c => some (.bool (smbc_getOptionDebugToStderr c))

/-- Source function `Context_setOptionDebugToStderr` (lines 286-298). -/
def Context_setOptionDebugToStderr (self : Context) (value : PyObject) : Option SetResult :=
  if !PyBool_Check value then some ⟨-1, self, some .TypeError⟩
  else
    match self.context with
    | Option.none => Option.none
    | some c =>
      some ⟨0, { self with context := some (smbc_setOptionDebugToStderr c (isPyTrue value)) },
        Option.none⟩

/-- Source function `Context_getOptionNoAutoAnonymousLogin` (lines 300-306). -/
def Context_getOptionNoAutoAnonymousLogin (self : Context) : Option PyObject :=
  match self.context with
  | Option.none => Option.none
  | some c => some (.bool (smbc_getOptionNoAutoAnonymousLogin c))

/-- Source function `Context_setOptionNoAutoAnonymousLogin` (lines 308-320). -/
def Context_setOptionNoAutoAnonymousLogin (self : Context) (value : PyObject) :
    Option SetResult :=
  if !PyBool_Check value then some ⟨-1, self, some .TypeError⟩
  else
    match self.context with
    | Option.none => Option.none
    | some c =>
      some ⟨0,
        { self with context := some (smbc_setOptionNoAutoAnonymousLogin c (isPyTrue value)) },
        Option.none⟩

/-! ## Calling contract of the native layer -/

/-- What the native layer guarantees for one output buffer of `auth_fn`: the region
holds a NUL-terminated string on entry, and the limit is a non-negative `int` that does
not exceed the region. -/
def BufOk (buf : List Nat) (maxlen : Int) : Prop :=
  0 ∈ buf ∧ 0 ≤ maxlen ∧ maxlen ≤ INT_MAX ∧ maxlen ≤ (buf.length : Int)

instance (buf : List Nat) (maxlen : Int) : Decidable (BufOk buf maxlen) := by
  unfold BufOk; infer_instance

/-- The positional arguments `auth_fn` builds for the resolver from its own arguments,
for buffers holding NUL-terminated strings on entry. -/
def entryArgs (server : List Nat) (share : Option (List Nat))
    (workgroup username password : List Nat) : List PyObject :=
  [.str server, buildStr share,
   .str (workgroup.takeWhile (fun b => b ≠ 0)),
   .str (username.takeWhile (fun b => b ≠ 0)),
   .str (password.takeWhile (fun b => b ≠ 0))]

/-- The region `dest` after `strncpy (dest, src, n)` with `n` inside the region. -/
def copied (dest src : List Nat) (n : Nat) : List Nat :=
  (src.takeWhile (fun b => b ≠ 0)).take n
    ++ List.replicate (n - (src.takeWhile (fun b => b ≠ 0)).length) 0 ++ dest.drop n

/-- Spec wording: exactly a tuple of three strings. -/
def isThreeStrings : PyObject → Bool
  | .tuple [.str _, .str _, .str _] => true
  | _ => false

/-- The object after the resolver argument has been stored. -/
def withAuth (self : Context) : Option PyObject → Context
  | some f => { self with auth_fn := some f }
  | Option.none => self

/-- The native context once flags, user data and callback have been applied. -/
def builtCtx (ctx : SMBCCTX) (auth : Option PyObject) (fl : Nat) : SMBCCTX :=
  let ctx1 : SMBCCTX := if fl ≠ 0 then { ctx with flags := ctx.flags ||| fl } else ctx
  let ctx2 := smbc_setOptionUserData ctx1
  if auth.isSome then smbc_setFunctionAuthDataWithContext ctx2 else ctx2

/-! ## Sample values -/

/-- A host program in which every callable returns `r`. -/
def constEnv (r : PyObject) : PyEnv := fun _ _ _ => .ok r

/-- A native context as `smbc_new_context` hands it out: debug level 0, no flags. -/
def freshCtx : SMBCCTX := ⟨0, 0, false, false, false, false⟩

/-- A constructed `Context` whose resolver is the callable `id`. -/
def ctxWith (id : Nat) : Context :=
  ⟨some (smbc_setFunctionAuthDataWithContext (smbc_setOptionUserData freshCtx)),
   some (.callable id)⟩

/-! ## Basic facts -/

theorem cstr_of_mem {m : List Nat} (h : 0 ∈ m) :
    cstr m = some (m.takeWhile (fun b => b ≠ 0)) := by
  simp [cstr, h]

theorem toSizeT_of_nonneg {n : Int} (h0 : 0 ≤ n) (h1 : n ≤ INT_MAX) :
    toSizeT n = n.toNat := by
  unfold toSizeT
  unfold INT_MAX at h1
  rw [Int.emod_eq_of_lt h0 (by omega)]

theorem toSizeT_le_length {buf : List Nat} {n : Int} (h : BufOk buf n) :
    toSizeT n ≤ buf.length := by
  obtain ⟨_, h0, h1, h2⟩ := h
  rw [toSizeT_of_nonneg h0 h1]
  omega

theorem strncpy_of_le {dest : List Nat} (src : List Nat) {n : Nat} (h : n ≤ dest.length) :
    strncpy dest src n =
      some ((src.takeWhile (fun b => b ≠ 0)).take n
        ++ List.replicate (n - (src.takeWhile (fun b => b ≠ 0)).length) 0 ++ dest.drop n) := by
  simp [strncpy, h]

/-- The bytes `strncpy` writes are exactly `n`. -/
theorem strncpy_written_length (src : List Nat) (n : Nat) :
    ((src.takeWhile (fun b => b ≠ 0)).take n
      ++ List.replicate (n - (src.takeWhile (fun b => b ≠ 0)).length) 0).length = n := by
  simp only [List.length_append, List.length_take, List.length_replicate]
  omega

theorem strncpy_length {dest src r : List Nat} {n : Nat} (h : strncpy dest src n = some r) :
    r.length = dest.length := by
  unfold strncpy at h
  split at h
  · rename_i hle
    cases h
    rw [List.length_append, strncpy_written_length, List.length_drop]
    omega
  · cases h

theorem strncpy_drop {dest src r : List Nat} {n : Nat} (h : strncpy dest src n = some r) :
    r.drop n = dest.drop n := by
  unfold strncpy at h
  split at h
  · cases h
    exact List.drop_left' (strncpy_written_length src n)
  · cases h

theorem strncpy_getElem_of_le {dest src r : List Nat} {n : Nat}
    (h : strncpy dest src n = some r) (i : Nat) (hi : n ≤ i) : r[i]? = dest[i]? := by
  have hd := strncpy_drop h
  have h1 : (r.drop n)[i - n]? = (dest.drop n)[i - n]? := by rw [hd]
  rw [List.getElem?_drop, List.getElem?_drop] at h1
  have : n + (i - n) = i := by omega
  rwa [this] at h1

theorem takeWhile_ne_zero_of_not_mem {s : List Nat} (h : 0 ∉ s) :
    s.takeWhile (fun b => b ≠ 0) = s := by
  induction s with
  | nil => rfl
  | cons a t ih =>
    have ha : a ≠ 0 := fun e => h (by simp [e])
    have ht : 0 ∉ t := fun e => h (List.mem_cons_of_mem _ e)
    rw [List.takeWhile_cons, ih ht]
    simp [ha]

/-! ## Claims on `auth_fn` -/

theorem auth_fn_silent_without_resolver {env : PyEnv} {self : Context}
    {server share : Option (List Nat)} {workgroup : List Nat} {wgmaxlen : Int}
    {username : List Nat} {unmaxlen : Int} {password : List Nat} {pwmaxlen : Int}
    {pyerr : Option PyExc} (h : self.auth_fn = Option.none) :
    auth_fn env self server share workgroup wgmaxlen username unmaxlen password pwmaxlen
        pyerr
      = some ⟨workgroup, username, password, [], pyerr⟩ := by
  unfold auth_fn
  rw [h]

theorem auth_fn_silent_without_server (env : PyEnv) (self : Context)
    (server share : Option (List Nat)) (workgroup : List Nat) (wgmaxlen : Int)
    (username : List Nat) (unmaxlen : Int) (password : List Nat) (pwmaxlen : Int)
    (pyerr : Option PyExc) (h : server = Option.none ∨ server = some []) :
    auth_fn env self server share workgroup wgmaxlen username unmaxlen password pwmaxlen
        pyerr
      = some ⟨workgroup, username, password, [], pyerr⟩ := by
  unfold auth_fn
  rcases h with h | h <;> subst h <;> cases self.auth_fn <;> rfl

/-- C1: when no resolver is configured, or the server argument is NULL or the empty
string, `auth_fn` makes no call into Python, leaves the error indicator as it found it,
and leaves the three output buffers unchanged. -/
theorem auth_fn_silent_without_resolver_or_server (env : PyEnv) (self : Context)
    (server share : Option (List Nat)) (workgroup : List Nat) (wgmaxlen : Int)
    (username : List Nat) (unmaxlen : Int) (password : List Nat) (pwmaxlen : Int)
    (pyerr : Option PyExc)
    (h : self.auth_fn = Option.none ∨ server = Option.none ∨ server = some []) :
    auth_fn env self server share workgroup wgmaxlen username unmaxlen password pwmaxlen
        pyerr
      = some ⟨workgroup, username, password, [], pyerr⟩ := by
  rcases h with h | h | h
  · exact auth_fn_silent_without_resolver h
  · exact auth_fn_silent_without_server _ _ _ _ _ _ _ _ _ _ _ (Or.inl h)
  · exact auth_fn_silent_without_server _ _ _ _ _ _ _ _ _ _ _ (Or.inr h)

/-- Shape of `auth_fn` when a resolver is stored, the server is non-empty and the
calling contract holds: one call, then either an abort or three `strncpy`s. -/
theorem auth_fn_configured (env : PyEnv) (self : Context) (cb : PyObject)
    (c : Nat) (cs : List Nat) (share : Option (List Nat))
    (workgroup : List Nat) (wgmaxlen : Int) (username : List Nat) (unmaxlen : Int)
    (password : List Nat) (pwmaxlen : Int) (pyerr : Option PyExc)
    (hcb : self.auth_fn = some cb)
    (hwg : BufOk workgroup wgmaxlen) (hun : BufOk username unmaxlen)
    (hpw : BufOk password pwmaxlen) :
    auth_fn env self (some (c :: cs)) share workgroup wgmaxlen username unmaxlen
        password pwmaxlen pyerr
      = match PyObject_Call env cb (entryArgs (c :: cs) share workgroup username password)
            [] with
        | .error e =>
          some ⟨workgroup, username, password,
            [⟨cb, entryArgs (c :: cs) share workgroup username password, []⟩], some e⟩
        | .ok result =>
          match PyArg_ParseTuple_sss result with
          | .error e =>
            some ⟨workgroup, username, password,
              [⟨cb, entryArgs (c :: cs) share workgroup username password, []⟩], some e⟩
          | .ok (w, u, p) =>
            some ⟨copied workgroup w wgmaxlen.toNat, copied username u unmaxlen.toNat,
              copied password p pwmaxlen.toNat,
              [⟨cb, entryArgs (c :: cs) share workgroup username password, []⟩], pyerr⟩ := by
  have lwg := toSizeT_le_length hwg
  have lun := toSizeT_le_length hun
  have lpw := toSizeT_le_length hpw
  have ewg := toSizeT_of_nonneg hwg.2.1 hwg.2.2.1
  have eun := toSizeT_of_nonneg hun.2.1 hun.2.2.1
  have epw := toSizeT_of_nonneg hpw.2.1 hpw.2.2.1
  unfold auth_fn
  rw [hcb]
  simp only [cstr_of_mem hwg.1, cstr_of_mem hun.1, cstr_of_mem hpw.1]
  change (match PyObject_Call env cb (entryArgs (c :: cs) share workgroup username password)
            [] with
        | .error e => _
        | .ok result => _) = _
  cases PyObject_Call env cb (entryArgs (c :: cs) share workgroup username password) [] with
  | error e => rfl
  | ok result =>
    simp only []
    cases PyArg_ParseTuple_sss result with
    | error e => rfl
    | ok t =>
      obtain ⟨w, u, p⟩ := t
      simp only [strncpy_of_le _ lwg, strncpy_of_le _ lun, strncpy_of_le _ lpw]
      simp only [copied, ewg, eun, epw]
      rfl

theorem copied_length {dest : List Nat} (src : List Nat) {n : Nat} (h : n ≤ dest.length) :
    (copied dest src n).length = dest.length :=
  strncpy_length (strncpy_of_le src h)

theorem copied_getElem_of_le {dest : List Nat} (src : List Nat) {n : Nat}
    (h : n ≤ dest.length) (i : Nat) (hi : n ≤ i) : (copied dest src n)[i]? = dest[i]? :=
  strncpy_getElem_of_le (strncpy_of_le src h) i hi

theorem toNat_le_length {buf : List Nat} {n : Int} (h : BufOk buf n) :
    n.toNat ≤ buf.length := by
  obtain ⟨_, h0, _, h2⟩ := h
  omega

/-- C3: under the calling contract (NUL-terminated buffers on entry, each limit a
non-negative `int` within its region), `auth_fn` returns, keeps the size of every region
and leaves every byte at an index at or beyond the region's own limit as it was,
whatever the resolver does and returns. -/
theorem auth_fn_writes_within_limits (env : PyEnv) (self : Context)
    (server share : Option (List Nat)) (workgroup : List Nat) (wgmaxlen : Int)
    (username : List Nat) (unmaxlen : Int) (password : List Nat) (pwmaxlen : Int)
    (pyerr : Option PyExc)
    (hwg : BufOk workgroup wgmaxlen) (hun : BufOk username unmaxlen)
    (hpw : BufOk password pwmaxlen) :
    ∃ out, auth_fn env self server share workgroup wgmaxlen username unmaxlen password
        pwmaxlen pyerr = some out
      ∧ out.workgroup.length = workgroup.length
      ∧ out.username.length = username.length
      ∧ out.password.length = password.length
      ∧ (∀ i : Nat, wgmaxlen ≤ (i : Int) → out.workgroup[i]? = workgroup[i]?)
      ∧ (∀ i : Nat, unmaxlen ≤ (i : Int) → out.username[i]? = username[i]?)
      ∧ (∀ i : Nat, pwmaxlen ≤ (i : Int) → out.password[i]? = password[i]?) := by
  have same : ∀ (calls : List Call) (e : Option PyExc),
      ∃ out, some (AuthOutcome.mk workgroup username password calls e) = some out
        ∧ out.workgroup.length = workgroup.length
        ∧ out.username.length = username.length
        ∧ out.password.length = password.length
        ∧ (∀ i : Nat, wgmaxlen ≤ (i : Int) → out.workgroup[i]? = workgroup[i]?)
        ∧ (∀ i : Nat, unmaxlen ≤ (i : Int) → out.username[i]? = username[i]?)
        ∧ (∀ i : Nat, pwmaxlen ≤ (i : Int) → out.password[i]? = password[i]?) :=
    fun calls e => ⟨_, rfl, rfl, rfl, rfl, fun _ _ => rfl, fun _ _ => rfl, fun _ _ => rfl⟩
  cases hcb : self.auth_fn with
  | none =>
    rw [auth_fn_silent_without_resolver hcb]
    exact same _ _
  | some cb =>
    match server with
    | Option.none =>
      rw [auth_fn_silent_without_server env self Option.none _ _ _ _ _ _ _ _ (Or.inl rfl)]
      exact same _ _
    | some [] =>
      rw [auth_fn_silent_without_server env self (some []) _ _ _ _ _ _ _ _ (Or.inr rfl)]
      exact same _ _
    | some (c :: cs) =>
      rw [auth_fn_configured env self cb c cs share workgroup wgmaxlen username unmaxlen
        password pwmaxlen pyerr hcb hwg hun hpw]
      cases PyObject_Call env cb (entryArgs (c :: cs) share workgroup username password)
          [] with
      | error e => exact same _ _
      | ok result =>
        dsimp only
        cases PyArg_ParseTuple_sss result with
        | error e => exact same _ _
        | ok t =>
          obtain ⟨w, u, p⟩ := t
          have lwg := toNat_le_length hwg
          have lun := toNat_le_length hun
          have lpw := toNat_le_length hpw
          refine ⟨_, rfl, copied_length w lwg, copied_length u lun, copied_length p lpw,
            ?_, ?_, ?_⟩
          · intro i hi
            exact copied_getElem_of_le w lwg i (by omega)
          · intro i hi
            exact copied_getElem_of_le u lun i (by omega)
          · intro i hi
            exact copied_getElem_of_le p lpw i (by omega)

/-- Witness of C3: a resolver returning strings longer than every limit, on 4 byte
regions with limits 2, 3 and 4. -/
theorem auth_fn_writes_within_limits_witness :
    ∃ out, auth_fn (constEnv (.tuple [.str [65, 66, 67, 68, 69], .str [70, 71, 72, 73, 74],
          .str [75, 76, 77, 78, 79]])) (ctxWith 0) (some [115]) Option.none
          [88, 89, 90, 0] 2 [88, 89, 90, 0] 3 [88, 89, 90, 0] 4 Option.none = some out
      ∧ out.workgroup.length = [88, 89, 90, 0].length
      ∧ out.username.length = [88, 89, 90, 0].length
      ∧ out.password.length = [88, 89, 90, 0].length
      ∧ (∀ i : Nat, (2 : Int) ≤ (i : Int) → out.workgroup[i]? = [88, 89, 90, 0][i]?)
      ∧ (∀ i : Nat, (3 : Int) ≤ (i : Int) → out.username[i]? = [88, 89, 90, 0][i]?)
      ∧ (∀ i : Nat, (4 : Int) ≤ (i : Int) → out.password[i]? = [88, 89, 90, 0][i]?) :=
  auth_fn_writes_within_limits _ _ _ _ _ _ _ _ _ _ _
    (by decide) (by decide) (by decide)

/-- Witness of C1: no resolver stored. -/
theorem auth_fn_silent_without_resolver_or_server_witness :
    auth_fn (constEnv .none) Context_new (some [115]) Option.none [87, 0] 2 [0] 1 [0] 1
        Option.none
      = some ⟨[87, 0], [0], [0], [], Option.none⟩ :=
  auth_fn_silent_without_resolver_or_server _ _ _ _ _ _ _ _ _ _ _ (Or.inl rfl)

theorem parse_s_error {a : PyObject} {e : PyExc} (h : parse_s a = .error e) :
    e = .TypeError := by
  unfold parse_s at h
  split at h
  · split at h
    · cases h; rfl
    · cases h
  · cases h; rfl

theorem parse_s_ok {a : PyObject} {x : List Nat} (h : parse_s a = .ok x) :
    a = .str x ∧ 0 ∉ x := by
  unfold parse_s at h
  split at h
  · split at h
    · cases h
    · rename_i hb
      cases h
      exact ⟨rfl, hb⟩
  · cases h

/-- A result that `PyArg_ParseTuple` with the format `sss` accepts is a tuple of three strings
without embedded NUL. -/
theorem PyArg_ParseTuple_sss_ok {r : PyObject} {w u p : List Nat}
    (h : PyArg_ParseTuple_sss r = .ok (w, u, p)) :
    r = .tuple [.str w, .str u, .str p] ∧ 0 ∉ w ∧ 0 ∉ u ∧ 0 ∉ p := by
  unfold PyArg_ParseTuple_sss at h
  split at h
  · rename_i a b c
    cases ha : parse_s a with
    | error e => rw [ha] at h; cases h
    | ok x =>
      rw [ha] at h
      cases hb : parse_s b with
      | error e => rw [hb] at h; cases h
      | ok y =>
        rw [hb] at h
        cases hc : parse_s c with
        | error e => rw [hc] at h; cases h
        | ok z =>
          rw [hc] at h
          cases h
          obtain ⟨rfl, h1⟩ := parse_s_ok ha
          obtain ⟨rfl, h2⟩ := parse_s_ok hb
          obtain ⟨rfl, h3⟩ := parse_s_ok hc
          exact ⟨rfl, h1, h2, h3⟩
  · cases h
  · cases h

/-- The exception a failed `PyArg_ParseTuple` with the format `sss` sets. -/
theorem PyArg_ParseTuple_sss_error {r : PyObject} {e : PyExc}
    (h : PyArg_ParseTuple_sss r = .error e) : e = .TypeError ∨ e = .SystemError := by
  unfold PyArg_ParseTuple_sss at h
  split at h
  · rename_i a b c
    cases ha : parse_s a with
    | error e1 => rw [ha] at h; cases h; exact Or.inl (parse_s_error ha)
    | ok x =>
      rw [ha] at h
      cases hb : parse_s b with
      | error e1 => rw [hb] at h; cases h; exact Or.inl (parse_s_error hb)
      | ok y =>
        rw [hb] at h
        cases hc : parse_s c with
        | error e1 => rw [hc] at h; cases h; exact Or.inl (parse_s_error hc)
        | ok z => rw [hc] at h; cases h
  · cases h; exact Or.inl rfl
  · cases h; exact Or.inr rfl

/-- A result that is not a tuple of three strings is rejected. -/
theorem PyArg_ParseTuple_sss_malformed {r : PyObject} (h : isThreeStrings r = false) :
    ∃ e, (e = .TypeError ∨ e = .SystemError) ∧ PyArg_ParseTuple_sss r = .error e := by
  cases hp : PyArg_ParseTuple_sss r with
  | error e => exact ⟨e, PyArg_ParseTuple_sss_error hp, rfl⟩
  | ok t =>
    obtain ⟨w, u, p⟩ := t
    obtain ⟨rfl, _⟩ := PyArg_ParseTuple_sss_ok hp
    simp [isThreeStrings] at h

/-- C4 (amended): when the resolver returns something that is not a tuple of three
strings, `auth_fn` returns with the three buffers unmodified after exactly that one
call, and the exception set by the failed `PyArg_ParseTuple` (`TypeError`, or
`SystemError` for a non-tuple) stays in the error indicator: it is not cleared. -/
theorem auth_fn_malformed_result_aborts (env : PyEnv) (self : Context) (cb : PyObject)
    (s : List Nat) (share : Option (List Nat))
    (workgroup : List Nat) (wgmaxlen : Int) (username : List Nat) (unmaxlen : Int)
    (password : List Nat) (pwmaxlen : Int) (pyerr : Option PyExc) (result : PyObject)
    (hcb : self.auth_fn = some cb) (hs : s ≠ [])
    (hwg : BufOk workgroup wgmaxlen) (hun : BufOk username unmaxlen)
    (hpw : BufOk password pwmaxlen)
    (hcall : PyObject_Call env cb (entryArgs s share workgroup username password) []
      = .ok result)
    (hbad : isThreeStrings result = false) :
    ∃ e, (e = PyExc.TypeError ∨ e = PyExc.SystemError)
      ∧ auth_fn env self (some s) share workgroup wgmaxlen username unmaxlen password
          pwmaxlen pyerr
        = some ⟨workgroup, username, password,
            [⟨cb, entryArgs s share workgroup username password, []⟩], some e⟩ := by
  obtain ⟨e, he, hp⟩ := PyArg_ParseTuple_sss_malformed hbad
  refine ⟨e, he, ?_⟩
  cases s with
  | nil => exact absurd rfl hs
  | cons c cs =>
    rw [auth_fn_configured env self cb c cs share workgroup wgmaxlen username unmaxlen
      password pwmaxlen pyerr hcb hwg hun hpw, hcall]
    dsimp only
    rw [hp]

/-- Witness of C4 (amended): a resolver returning the integer 5. -/
theorem auth_fn_malformed_result_aborts_witness :
    ∃ e, (e = PyExc.TypeError ∨ e = PyExc.SystemError)
      ∧ auth_fn (constEnv (.int 5)) (ctxWith 0) (some [115]) Option.none
          [87, 0] 2 [0] 1 [0] 1 Option.none
        = some ⟨[87, 0], [0], [0],
            [⟨.callable 0, entryArgs [115] Option.none [87, 0] [0] [0], []⟩], some e⟩ :=
  auth_fn_malformed_result_aborts (constEnv (.int 5)) (ctxWith 0) (.callable 0) [115]
    Option.none [87, 0] 2 [0] 1 [0] 1 Option.none (.int 5) rfl (by decide) (by decide)
    (by decide) (by decide) rfl rfl

/-- C4 (counterexample): a resolver returning a tuple of two strings, with the error
indicator clear on entry. `auth_fn` returns with the buffers unmodified but with
`TypeError` left in the error indicator. -/
theorem auth_fn_malformed_result_leaves_error :
    ∃ out, auth_fn (constEnv (.tuple [.str [97], .str [98]])) (ctxWith 0) (some [115])
          Option.none [87, 0] 2 [0] 1 [0] 1 Option.none = some out
      ∧ out.workgroup = [87, 0] ∧ out.username = [0] ∧ out.password = [0]
      ∧ out.pyerr = some PyExc.TypeError ∧ out.pyerr ≠ Option.none :=
  ⟨_, rfl, rfl, rfl, rfl, rfl, by decide⟩

/-- C9: with a resolver stored, a non-empty server and the calling contract, `auth_fn`
returns having made exactly one call into Python: the stored resolver, with the five
positional arguments server, share (`None` for a NULL share), and the strings the three
buffers held on entry, in that order, and with an empty keyword dictionary. -/
theorem auth_fn_calls_resolver_once (env : PyEnv) (self : Context) (cb : PyObject)
    (s : List Nat) (share : Option (List Nat))
    (workgroup : List Nat) (wgmaxlen : Int) (username : List Nat) (unmaxlen : Int)
    (password : List Nat) (pwmaxlen : Int) (pyerr : Option PyExc)
    (hcb : self.auth_fn = some cb) (hs : s ≠ [])
    (hwg : BufOk workgroup wgmaxlen) (hun : BufOk username unmaxlen)
    (hpw : BufOk password pwmaxlen) :
    ∃ wg un pw, cstr workgroup = some wg ∧ cstr username = some un
      ∧ cstr password = some pw
      ∧ ∃ out, auth_fn env self (some s) share workgroup wgmaxlen username unmaxlen
          password pwmaxlen pyerr = some out
        ∧ out.calls = [⟨cb, [.str s, buildStr share, .str wg, .str un, .str pw], []⟩] := by
  refine ⟨_, _, _, cstr_of_mem hwg.1, cstr_of_mem hun.1, cstr_of_mem hpw.1, ?_⟩
  cases s with
  | nil => exact absurd rfl hs
  | cons c cs =>
    rw [auth_fn_configured env self cb c cs share workgroup wgmaxlen username unmaxlen
      password pwmaxlen pyerr hcb hwg hun hpw]
    cases PyObject_Call env cb (entryArgs (c :: cs) share workgroup username password)
        [] with
    | error e => exact ⟨_, rfl, rfl⟩
    | ok result =>
      dsimp only
      cases PyArg_ParseTuple_sss result with
      | error e => exact ⟨_, rfl, rfl⟩
      | ok t =>
        obtain ⟨w, u, p⟩ := t
        exact ⟨_, rfl, rfl⟩

/-- Witness of C9: server `s`, share `d`, buffers holding `W`, `U` and the empty string. -/
theorem auth_fn_calls_resolver_once_witness :
    ∃ wg un pw, cstr [87, 0, 0] = some wg ∧ cstr [85, 0, 0] = some un
      ∧ cstr [0, 0, 0] = some pw
      ∧ ∃ out, auth_fn (constEnv (.tuple [.str [97], .str [98], .str [99]])) (ctxWith 7)
          (some [115]) (some [100]) [87, 0, 0] 3 [85, 0, 0] 3 [0, 0, 0] 3 Option.none
          = some out
      ∧ out.calls
        = [⟨.callable 7, [.str [115], buildStr (some [100]), .str wg, .str un, .str pw],
            []⟩] :=
  auth_fn_calls_resolver_once _ (ctxWith 7) (.callable 7) [115] _ _ _ _ _ _ _ _ rfl
    (by decide) (by decide) (by decide) (by decide)

/-- A source string shorter than the limit is copied whole, with its terminator. -/
theorem cstr_copied_of_lt {dest w : List Nat} {n : Nat} (hw : 0 ∉ w) (hlt : w.length < n) :
    cstr (copied dest w n) = some w := by
  have h1 : copied dest w n
      = w ++ (0 :: (List.replicate (n - w.length - 1) 0 ++ dest.drop n)) := by
    unfold copied
    rw [takeWhile_ne_zero_of_not_mem hw, List.take_of_length_le (by omega)]
    have : n - w.length = (n - w.length - 1) + 1 := by omega
    rw [this, List.replicate_succ]
    simp
  have hall : ∀ a ∈ w, (fun b : Nat => decide (b ≠ 0)) a = true := by
    intro a ha
    have : a ≠ 0 := fun e => hw (e ▸ ha)
    simpa using this
  rw [h1, cstr, if_pos (by simp), List.takeWhile_append_of_pos hall]
  simp

/-- Where C2 holds: for a resolver result that is a tuple of three strings, each strictly
shorter than its buffer's limit, `auth_fn` returns and every buffer then reads, as a
NUL-terminated string, as the corresponding returned string. -/
theorem auth_fn_short_result_copied (env : PyEnv) (self : Context) (cb : PyObject)
    (s : List Nat) (share : Option (List Nat))
    (workgroup : List Nat) (wgmaxlen : Int) (username : List Nat) (unmaxlen : Int)
    (password : List Nat) (pwmaxlen : Int) (pyerr : Option PyExc) (result : PyObject)
    (w u p : List Nat)
    (hcb : self.auth_fn = some cb) (hs : s ≠ [])
    (hwg : BufOk workgroup wgmaxlen) (hun : BufOk username unmaxlen)
    (hpw : BufOk password pwmaxlen)
    (hcall : PyObject_Call env cb (entryArgs s share workgroup username password) []
      = .ok result)
    (hres : PyArg_ParseTuple_sss result = .ok (w, u, p))
    (lw : (w.length : Int) < wgmaxlen) (lu : (u.length : Int) < unmaxlen)
    (lp : (p.length : Int) < pwmaxlen) :
    ∃ out, auth_fn env self (some s) share workgroup wgmaxlen username unmaxlen password
        pwmaxlen pyerr = some out
      ∧ cstr out.workgroup = some w ∧ cstr out.username = some u
      ∧ cstr out.password = some p := by
  obtain ⟨_, hw, hu, hp⟩ := PyArg_ParseTuple_sss_ok hres
  cases s with
  | nil => exact absurd rfl hs
  | cons c cs =>
    rw [auth_fn_configured env self cb c cs share workgroup wgmaxlen username unmaxlen
      password pwmaxlen pyerr hcb hwg hun hpw, hcall]
    dsimp only
    rw [hres]
    exact ⟨_, rfl, cstr_copied_of_lt hw (by omega), cstr_copied_of_lt hu (by omega),
      cstr_copied_of_lt hp (by omega)⟩

/-- C2 (the code at the failing inputs). A resolver returning the workgroup `ABCD` for a
4 byte buffer with limit 4: the buffer ends up holding the four characters and no NUL,
so it does not read as a NUL-terminated string inside its region. With the limit 2 on
the region `XYZ` + NUL and the workgroup `ABCDE`, the buffer reads as `ABZ`: longer than the
limit and not the start of the returned string. -/
theorem auth_fn_long_result_unterminated :
    (∃ out, auth_fn (constEnv (.tuple [.str [65, 66, 67, 68], .str [117], .str [112]]))
          (ctxWith 0) (some [115]) Option.none
          [0, 0, 0, 0] 4 [0, 0, 0, 0] 4 [0, 0, 0, 0] 4 Option.none = some out
        ∧ out.workgroup = [65, 66, 67, 68] ∧ cstr out.workgroup = Option.none)
    ∧ (∃ out, auth_fn (constEnv (.tuple [.str [65, 66, 67, 68, 69], .str [117], .str [112]]))
          (ctxWith 0) (some [115]) Option.none
          [88, 89, 90, 0] 2 [0, 0, 0, 0] 4 [0, 0, 0, 0] 4 Option.none = some out
        ∧ out.workgroup = [65, 66, 90, 0] ∧ cstr out.workgroup = some [65, 66, 90]) :=
  ⟨⟨_, rfl, rfl, rfl⟩, ⟨_, rfl, rfl, rfl⟩⟩

/-! ## Claims on the setters -/

/-- C5: on a context with a native handle, `Context_setFunctionAuthData` with a callable
`value` succeeds, stores `value` and registers `auth_fn` on the native context (whose
user data it does not touch); the next run of `auth_fn` with a non-empty server then
makes exactly one call, to `value`, whatever resolver was stored before. With a
non-callable `value` it fails with `TypeError` and leaves the object, and so the stored
resolver, unchanged. -/
theorem setFunctionAuthData_replaces_resolver (env : PyEnv) (self : Context)
    (c : SMBCCTX) (value : PyObject) (hctx : self.context = some c) :
    (PyCallable_Check value = true →
      ∃ self1 c1, Context_setFunctionAuthData self value = some ⟨0, self1, Option.none⟩
        ∧ self1.auth_fn = some value ∧ self1.context = some c1
        ∧ c1.authFn = true ∧ c1.userData = c.userData
        ∧ ∀ (s : List Nat) (share : Option (List Nat)) (workgroup : List Nat)
            (wgmaxlen : Int) (username : List Nat) (unmaxlen : Int) (password : List Nat)
            (pwmaxlen : Int) (pyerr : Option PyExc),
            s ≠ [] → BufOk workgroup wgmaxlen → BufOk username unmaxlen →
            BufOk password pwmaxlen →
            ∃ wg un pw, cstr workgroup = some wg ∧ cstr username = some un
              ∧ cstr password = some pw
              ∧ ∃ out, auth_fn env self1 (some s) share workgroup wgmaxlen username
                  unmaxlen password pwmaxlen pyerr = some out
                ∧ out.calls
                  = [⟨value, [.str s, buildStr share, .str wg, .str un, .str pw], []⟩])
    ∧ (PyCallable_Check value = false →
      Context_setFunctionAuthData self value = some ⟨-1, self, some PyExc.TypeError⟩) := by
  constructor
  · intro hv
    refine ⟨⟨some (smbc_setFunctionAuthDataWithContext c), some value⟩,
      smbc_setFunctionAuthDataWithContext c, ?_, rfl, rfl, rfl, rfl, ?_⟩
    · simp [Context_setFunctionAuthData, hv, hctx]
    · intro s share workgroup wgmaxlen username unmaxlen password pwmaxlen pyerr hs hwg
        hun hpw
      refine ⟨_, _, _, cstr_of_mem hwg.1, cstr_of_mem hun.1, cstr_of_mem hpw.1, ?_⟩
      cases s with
      | nil => exact absurd rfl hs
      | cons c0 cs =>
        rw [auth_fn_configured env _ value c0 cs share workgroup wgmaxlen username
          unmaxlen password pwmaxlen pyerr rfl hwg hun hpw]
        cases PyObject_Call env value
            (entryArgs (c0 :: cs) share workgroup username password) [] with
        | error e => exact ⟨_, rfl, rfl⟩
        | ok result =>
          dsimp only
          cases PyArg_ParseTuple_sss result with
          | error e => exact ⟨_, rfl, rfl⟩
          | ok t =>
            obtain ⟨w, u, p⟩ := t
            exact ⟨_, rfl, rfl⟩
  · intro hv
    simp [Context_setFunctionAuthData, hv]

/-- Witness of C5: a context built with resolver 1; the setter is given the callable 2,
after which a challenge for server `s` calls 2 only; and the setter is given `None`. -/
theorem setFunctionAuthData_replaces_resolver_witness :
    (∃ self1, Context_setFunctionAuthData (ctxWith 1) (.callable 2)
          = some ⟨0, self1, Option.none⟩
        ∧ self1.auth_fn = some (.callable 2)
        ∧ ∃ out, auth_fn (constEnv .none) self1 (some [115]) Option.none [0] 1 [0] 1 [0] 1
              Option.none = some out
          ∧ out.calls = [⟨.callable 2, [.str [115], .none, .str [], .str [], .str []], []⟩])
    ∧ Context_setFunctionAuthData (ctxWith 1) .none
        = some ⟨-1, ctxWith 1, some PyExc.TypeError⟩ := by
  have h := setFunctionAuthData_replaces_resolver (constEnv .none) (ctxWith 1)
    (smbc_setFunctionAuthDataWithContext (smbc_setOptionUserData freshCtx)) (.callable 2) rfl
  have h0 := setFunctionAuthData_replaces_resolver (constEnv .none) (ctxWith 1)
    (smbc_setFunctionAuthDataWithContext (smbc_setOptionUserData freshCtx)) .none rfl
  obtain ⟨self1, c1, h1, h2, _, _, _, h6⟩ := h.1 rfl
  obtain ⟨wg, un, pw, e1, e2, e3, out, ho, hc⟩ :=
    h6 [115] Option.none [0] 1 [0] 1 [0] 1 Option.none (by decide) (by decide) (by decide)
      (by decide)
  have w0 : cstr [0] = some [] := rfl
  rw [w0] at e1 e2 e3
  cases e1
  cases e2
  cases e3
  exact ⟨⟨self1, h1, h2, out, ho, hc⟩, h0.2 rfl⟩

theorem toCInt_of_range {n : Int} (h0 : INT_MIN ≤ n) (h1 : n ≤ INT_MAX) : toCInt n = n := by
  unfold toCInt
  unfold INT_MIN at h0
  unfold INT_MAX at h1
  rw [Int.emod_eq_of_lt (by omega) (by omega)]
  omega

/-- C7 (amended): on a context with a native handle, `Context_setDebug` with a value
passing `PyInt_Check` whose number lies in the range of a C `int` succeeds, and
`Context_getDebug` then returns that number (which may be negative); with any other
object it fails with `TypeError` and leaves the object, and so the debug level,
unchanged. -/
theorem setDebug_then_getDebug (self : Context) (c : SMBCCTX) (value : PyObject)
    (hctx : self.context = some c) :
    (PyInt_Check value = true → INT_MIN ≤ PyInt_AsLong value →
      PyInt_AsLong value ≤ INT_MAX →
      ∃ self1, Context_setDebug self value = some ⟨0, self1, Option.none⟩
        ∧ Context_getDebug self1 = some (.int (PyInt_AsLong value))
        ∧ self1.auth_fn = self.auth_fn)
    ∧ (PyInt_Check value = false →
      Context_setDebug self value = some ⟨-1, self, some PyExc.TypeError⟩) := by
  constructor
  · intro hv h0 h1
    refine ⟨{ self with context := some (smbc_setDebug c (PyInt_AsLong value)) }, ?_, rfl,
      rfl⟩
    simp [Context_setDebug, hv, hctx, toCInt_of_range h0 h1]
  · intro hv
    simp [Context_setDebug, hv]

/-- Witness of C7 (amended): the value 7, and the string `7`. -/
theorem setDebug_then_getDebug_witness :
    (∃ self1, Context_setDebug (ctxWith 0) (.int 7) = some ⟨0, self1, Option.none⟩
        ∧ Context_getDebug self1 = some (.int (PyInt_AsLong (.int 7)))
        ∧ self1.auth_fn = (ctxWith 0).auth_fn)
    ∧ Context_setDebug (ctxWith 0) (.str [55])
        = some ⟨-1, ctxWith 0, some PyExc.TypeError⟩ :=
  ⟨(setDebug_then_getDebug (ctxWith 0) _ (.int 7) rfl).1 rfl (by decide) (by decide),
   (setDebug_then_getDebug (ctxWith 0) _ (.str [55]) rfl).2 rfl⟩

/-- C7 (counterexample): `Context_setDebug` accepts -1 and the stored level is then -1,
below 0; it accepts 4294967296 and `Context_getDebug` then returns 0. -/
theorem setDebug_negative_and_narrowed :
    (∃ self1 c1, Context_setDebug (ctxWith 0) (.int (-1)) = some ⟨0, self1, Option.none⟩
        ∧ self1.context = some c1 ∧ c1.debug = -1 ∧ ¬ (0 ≤ c1.debug)
        ∧ Context_getDebug self1 = some (.int (-1)))
    ∧ (∃ self1, Context_setDebug (ctxWith 0) (.int 4294967296)
          = some ⟨0, self1, Option.none⟩
        ∧ Context_getDebug self1 = some (.int 0)
        ∧ Context_getDebug self1 ≠ some (.int 4294967296)) :=
  ⟨⟨_, _, rfl, rfl, rfl, by decide, rfl⟩,
   ⟨_, rfl, rfl, fun h => by
      have h1 := Option.some.inj h
      have h2 : (0 : Int) = 4294967296 := PyObject.int.inj h1
      exact absurd h2 (by decide)⟩⟩

/-- C8: for `optionDebugToStderr` and for `optionNoAutoAnonymousLogin`, on a context with
a native handle, the setter returns 0 exactly when the value passes `PyBool_Check`; then
the matching getter returns that Boolean, and the other option, the debug level and the
stored resolver are as before; otherwise it returns -1 with `TypeError` and the object
is unchanged. -/
theorem setOption_bool_roundtrip (self : Context) (c : SMBCCTX) (value : PyObject)
    (hctx : self.context = some c) :
    (∃ r, Context_setOptionDebugToStderr self value = some r
      ∧ (r.ret = 0 ↔ PyBool_Check value = true)
      ∧ (PyBool_Check value = true →
          r.pyerr = Option.none
          ∧ Context_getOptionDebugToStderr r.self = some value
          ∧ Context_getOptionNoAutoAnonymousLogin r.self
            = Context_getOptionNoAutoAnonymousLogin self
          ∧ Context_getDebug r.self = Context_getDebug self
          ∧ r.self.auth_fn = self.auth_fn)
      ∧ (PyBool_Check value = false →
          r.ret = -1 ∧ r.pyerr = some PyExc.TypeError ∧ r.self = self))
    ∧ (∃ r, Context_setOptionNoAutoAnonymousLogin self value = some r
      ∧ (r.ret = 0 ↔ PyBool_Check value = true)
      ∧ (PyBool_Check value = true →
          r.pyerr = Option.none
          ∧ Context_getOptionNoAutoAnonymousLogin r.self = some value
          ∧ Context_getOptionDebugToStderr r.self = Context_getOptionDebugToStderr self
          ∧ Context_getDebug r.self = Context_getDebug self
          ∧ r.self.auth_fn = self.auth_fn)
      ∧ (PyBool_Check value = false →
          r.ret = -1 ∧ r.pyerr = some PyExc.TypeError ∧ r.self = self)) := by
  obtain ⟨ctx, fn⟩ := self
  simp only at hctx
  subst hctx
  constructor
  · cases value with
    | bool b =>
      refine ⟨_, rfl, by simp [PyBool_Check], fun _ => ⟨rfl, ?_, rfl, rfl, rfl⟩,
        fun h => by simp [PyBool_Check] at h⟩
      cases b <;> rfl
    | _ => exact ⟨_, rfl, by simp [PyBool_Check], fun h => by simp [PyBool_Check] at h,
        fun _ => ⟨rfl, rfl, rfl⟩⟩
  · cases value with
    | bool b =>
      refine ⟨_, rfl, by simp [PyBool_Check], fun _ => ⟨rfl, ?_, rfl, rfl, rfl⟩,
        fun h => by simp [PyBool_Check] at h⟩
      cases b <;> rfl
    | _ => exact ⟨_, rfl, by simp [PyBool_Check], fun h => by simp [PyBool_Check] at h,
        fun _ => ⟨rfl, rfl, rfl⟩⟩

/-- Witness of C8: `True` for the first option, the integer 1 for the second. -/
theorem setOption_bool_roundtrip_witness :
    (∃ r, Context_setOptionDebugToStderr (ctxWith 0) (.bool true) = some r
      ∧ r.ret = 0 ∧ Context_getOptionDebugToStderr r.self = some (.bool true))
    ∧ (∃ r, Context_setOptionNoAutoAnonymousLogin (ctxWith 0) (.int 1) = some r
      ∧ r.ret = -1 ∧ r.pyerr = some PyExc.TypeError ∧ r.self = ctxWith 0) := by
  obtain ⟨⟨r, hr, hiff, hok, _⟩, _⟩ := setOption_bool_roundtrip (ctxWith 0)
    (smbc_setFunctionAuthDataWithContext (smbc_setOptionUserData freshCtx)) (.bool true) rfl
  obtain ⟨_, ⟨q, hq, _, _, hbad⟩⟩ := setOption_bool_roundtrip (ctxWith 0)
    (smbc_setFunctionAuthDataWithContext (smbc_setOptionUserData freshCtx)) (.int 1) rfl
  exact ⟨⟨r, hr, hiff.2 rfl, (hok rfl).2.1⟩, ⟨q, hq, hbad rfl⟩⟩

/-! ## Claims on construction -/

theorem Context_init_parse_error {nat : Native} {self : Context} {a : InitArgs} {e : PyExc}
    (h : PyArg_ParseTupleAndKeywords_Oii a = .error e) :
    Context_init nat self a = ⟨-1, self, some e, 0, 0⟩ := by
  unfold Context_init
  rw [h]

theorem Context_init_not_callable {nat : Native} {self : Context} {a : InitArgs}
    {f : PyObject} {d : Int} {fl : Nat}
    (h : PyArg_ParseTupleAndKeywords_Oii a = .ok (some f, d, fl))
    (hf : PyCallable_Check f = false) :
    Context_init nat self a = ⟨-1, self, some .TypeError, 0, 0⟩ := by
  unfold Context_init
  rw [h]
  simp [hf]

/-- Shape of `Context_init` once the arguments are parsed and the resolver, if given, is
callable. -/
theorem Context_init_parsed (nat : Native) (self : Context) {a : InitArgs}
    {auth : Option PyObject} {d : Int} {fl : Nat}
    (h : PyArg_ParseTupleAndKeywords_Oii a = .ok (auth, d, fl))
    (hf : ∀ f, auth = some f → PyCallable_Check f = true) :
    Context_init nat self a =
      match nat.new_context with
      | Option.none => ⟨-1, withAuth self auth, some .RuntimeError, 0, 0⟩
      | some ctx =>
        if nat.init_ok then
          ⟨0, { withAuth self auth with context := some (builtCtx ctx auth fl) },
            Option.none, 1, 0⟩
        else ⟨-1, withAuth self auth, some .RuntimeError, 1, 1⟩ := by
  unfold Context_init
  rw [h]
  cases auth with
  | none =>
    cases nat.new_context with
    | none => rfl
    | some ctx => cases nat.init_ok <;> rfl
  | some f =>
    have hc := hf f rfl
    cases nat.new_context with
    | none => simp [hc, withAuth]
    | some ctx => cases nat.init_ok <;> simp [hc, withAuth, builtCtx]

theorem parse_args_ok {a : InitArgs} {auth : Option PyObject} {d : Int} {fl : Nat}
    (h : PyArg_ParseTupleAndKeywords_Oii a = .ok (auth, d, fl)) :
    auth = a.auth_fn
      ∧ ∀ v n, a.flags = some v → parse_i v = .ok n → fl = toUnsigned n := by
  unfold PyArg_ParseTupleAndKeywords_Oii at h
  split at h
  · cases h
  · split at h
    · cases h
    · rename_i flags hfl
      cases h
      refine ⟨rfl, ?_⟩
      intro v n hv hn
      rw [hv] at hfl
      simp only [hn] at hfl
      cases hfl
      rfl

theorem withAuth_context (self : Context) (auth : Option PyObject) :
    (withAuth self auth).context = self.context := by
  cases auth <;> rfl

theorem builtCtx_flags (ctx : SMBCCTX) (auth : Option PyObject) (fl : Nat) :
    (builtCtx ctx auth fl).flags = ctx.flags ||| fl := by
  unfold builtCtx
  by_cases h : fl = 0
  · subst h
    cases auth <;> simp [smbc_setOptionUserData, smbc_setFunctionAuthDataWithContext]
  · cases auth <;> simp [h, smbc_setOptionUserData, smbc_setFunctionAuthDataWithContext]

theorem builtCtx_debug (ctx : SMBCCTX) (auth : Option PyObject) (fl : Nat) :
    (builtCtx ctx auth fl).debug = ctx.debug := by
  unfold builtCtx
  by_cases h : fl = 0
  · subst h
    cases auth <;> simp [smbc_setOptionUserData, smbc_setFunctionAuthDataWithContext]
  · cases auth <;> simp [h, smbc_setOptionUserData, smbc_setFunctionAuthDataWithContext]

/-- C10: `Context_init` on a fresh object returns -1 whenever `smbc_new_context` yields
NULL, whenever `smbc_init_context` fails, and whenever the supplied resolver is not
callable. Whenever it does not return 0 it returns -1 with an exception set, the native
handle of the object is still NULL, `Context_dealloc` then frees nothing, and every
native context obtained during the call has been freed. When it returns 0 the handle is
set, one native context was obtained and none freed, and every bit of the requested
flags is set in the flags of the native context. -/
theorem Context_init_outcomes (nat : Native) (a : InitArgs) :
    (nat.new_context = Option.none → (Context_init nat Context_new a).ret = -1)
    ∧ (nat.init_ok = false → (Context_init nat Context_new a).ret = -1)
    ∧ (∀ f, a.auth_fn = some f → PyCallable_Check f = false →
        (Context_init nat Context_new a).ret = -1)
    ∧ ((Context_init nat Context_new a).ret ≠ 0 →
        (Context_init nat Context_new a).ret = -1
        ∧ (Context_init nat Context_new a).pyerr ≠ Option.none
        ∧ (Context_init nat Context_new a).self.context = Option.none
        ∧ Context_dealloc (Context_init nat Context_new a).self = 0
        ∧ (Context_init nat Context_new a).freed = (Context_init nat Context_new a).allocated)
    ∧ ((Context_init nat Context_new a).ret = 0 →
        ∃ c, (Context_init nat Context_new a).self.context = some c
          ∧ Context_dealloc (Context_init nat Context_new a).self = 1
          ∧ (Context_init nat Context_new a).allocated = 1
          ∧ (Context_init nat Context_new a).freed = 0
          ∧ ∀ v n, a.flags = some v → parse_i v = .ok n →
              ∀ i, (toUnsigned n).testBit i = true → c.flags.testBit i = true) := by
  have fail : ∀ (s : Context) (e : PyExc) (k : Nat), s.context = Option.none →
      Context_init nat Context_new a = ⟨-1, s, some e, k, k⟩ →
      (nat.new_context = Option.none → (Context_init nat Context_new a).ret = -1)
      ∧ (nat.init_ok = false → (Context_init nat Context_new a).ret = -1)
      ∧ (∀ f, a.auth_fn = some f → PyCallable_Check f = false →
          (Context_init nat Context_new a).ret = -1)
      ∧ ((Context_init nat Context_new a).ret ≠ 0 →
          (Context_init nat Context_new a).ret = -1
          ∧ (Context_init nat Context_new a).pyerr ≠ Option.none
          ∧ (Context_init nat Context_new a).self.context = Option.none
          ∧ Context_dealloc (Context_init nat Context_new a).self = 0
          ∧ (Context_init nat Context_new a).freed
            = (Context_init nat Context_new a).allocated)
      ∧ ((Context_init nat Context_new a).ret = 0 →
          ∃ c, (Context_init nat Context_new a).self.context = some c
            ∧ Context_dealloc (Context_init nat Context_new a).self = 1
            ∧ (Context_init nat Context_new a).allocated = 1
            ∧ (Context_init nat Context_new a).freed = 0
            ∧ ∀ v n, a.flags = some v → parse_i v = .ok n →
                ∀ i, (toUnsigned n).testBit i = true → c.flags.testBit i = true) := by
    intro s e k hs h
    rw [h]
    refine ⟨fun _ => rfl, fun _ => rfl, fun _ _ _ => rfl, fun _ => ⟨rfl, ?_, hs, ?_, rfl⟩,
      fun h0 => ?_⟩
    · simp
    · simp [Context_dealloc, hs]
    · simp at h0
  cases hp : PyArg_ParseTupleAndKeywords_Oii a with
  | error e => exact fail _ e 0 rfl (Context_init_parse_error hp)
  | ok t =>
    obtain ⟨auth, d, fl⟩ := t
    obtain ⟨hauth, hflags⟩ := parse_args_ok hp
    by_cases hf : ∀ f, auth = some f → PyCallable_Check f = true
    · have hshape := Context_init_parsed nat Context_new hp hf
      obtain hn | ⟨ctx, hn⟩ : nat.new_context = Option.none
          ∨ ∃ ctx, nat.new_context = some ctx := by
        cases nat.new_context with
        | none => exact Or.inl rfl
        | some ctx => exact Or.inr ⟨ctx, rfl⟩
      · rw [hn] at hshape
        exact fail _ _ 0 (withAuth_context _ _) hshape
      · rw [hn] at hshape
        by_cases hi : nat.init_ok = true
        · rw [hi] at hshape
          simp only [if_true] at hshape
          rw [hshape]
          refine ⟨fun h => ?_, fun h => ?_, ?_, fun h => by simp at h,
            fun _ => ⟨builtCtx ctx auth fl, rfl, rfl, rfl, rfl, ?_⟩⟩
          · rw [hn] at h
            cases h
          · rw [hi] at h
            cases h
          · intro f haf hnc
            rw [hf f (hauth.trans haf)] at hnc
            cases hnc
          · intro v n hv hpn i hbit
            rw [builtCtx_flags, Nat.testBit_or, hflags v n hv hpn, hbit]
            simp
        · have hi0 : nat.init_ok = false := by
            cases h : nat.init_ok with
            | true => exact absurd h hi
            | false => rfl
          rw [hi0] at hshape
          exact fail _ _ 1 (withAuth_context _ _) hshape
    · have hex : ∃ f, auth = some f ∧ PyCallable_Check f = false := by
        by_contra hcon
        apply hf
        intro f hfa
        cases hc : PyCallable_Check f with
        | true => rfl
        | false => exact absurd ⟨f, hfa, hc⟩ hcon
      obtain ⟨f, rfl, hc⟩ := hex
      exact fail _ _ 0 rfl (Context_init_not_callable hp hc)

/-- Witness of C10: construction with a callable resolver and flags 5 on a native library
that succeeds, and construction on a native library whose `smbc_init_context` fails. -/
theorem Context_init_outcomes_witness :
    (∃ c, (Context_init ⟨some freshCtx, true⟩ Context_new
            ⟨some (.callable 1), Option.none, some (.int 5)⟩).self.context = some c
        ∧ c.flags.testBit 0 = true ∧ c.flags.testBit 2 = true)
    ∧ (Context_init ⟨some freshCtx, false⟩ Context_new
          ⟨Option.none, Option.none, Option.none⟩).ret = -1
    ∧ (Context_init ⟨some freshCtx, false⟩ Context_new
          ⟨Option.none, Option.none, Option.none⟩).self.context = Option.none
    ∧ (Context_init ⟨some freshCtx, false⟩ Context_new
          ⟨Option.none, Option.none, Option.none⟩).freed = 1 := by
  obtain ⟨_, _, _, _, hs⟩ := Context_init_outcomes ⟨some freshCtx, true⟩
    ⟨some (.callable 1), Option.none, some (.int 5)⟩
  obtain ⟨c, hc, _, _, _, hb⟩ := hs rfl
  obtain ⟨_, h2, _, h4, _⟩ := Context_init_outcomes ⟨some freshCtx, false⟩
    ⟨Option.none, Option.none, Option.none⟩
  have hret := h2 rfl
  have hne : (Context_init ⟨some freshCtx, false⟩ Context_new
      ⟨Option.none, Option.none, Option.none⟩).ret ≠ 0 := by
    rw [hret]
    decide
  exact ⟨⟨c, hc, hb _ 5 rfl rfl 0 (by decide), hb _ 5 rfl rfl 2 (by decide)⟩, hret,
    (h4 hne).2.2.1, rfl⟩

/-- C6 (the code at the failing input). `Context (debug=3)` on a native library whose
new contexts have debug level 0 succeeds, and `Context_getDebug` on the new object
returns 0, not 3. -/
theorem Context_init_debug_option_unused :
    (Context_init ⟨some freshCtx, true⟩ Context_new ⟨Option.none, some (.int 3), Option.none⟩).ret
        = 0
    ∧ Context_getDebug
        (Context_init ⟨some freshCtx, true⟩ Context_new
          ⟨Option.none, some (.int 3), Option.none⟩).self
      = some (.int 0) :=
  ⟨rfl, rfl⟩

/-- The `debug` argument does not reach the result of `Context_init`: two calls that
differ only in a `debug` value accepted by the `i` conversion give the same result. -/
theorem Context_init_debug_irrelevant (nat : Native) (self : Context)
    (auth flags : Option PyObject) (d1 d2 : PyObject) (n1 n2 : Int)
    (h1 : parse_i d1 = .ok n1) (h2 : parse_i d2 = .ok n2) :
    Context_init nat self ⟨auth, some d1, flags⟩
      = Context_init nat self ⟨auth, some d2, flags⟩ := by
  unfold Context_init PyArg_ParseTupleAndKeywords_Oii
  simp only [h1, h2]
  cases flags with
  | none => rfl
  | some v =>
    dsimp only
    cases parse_i v <;> rfl

end Pysmbc
